import Mathlib

/-!
Verification of the raft transport layer (storage/raft_transport.go).

The Go code is shallowly embedded: the shared mutable maps of the transport
(the per-destination queue registry and the address-resolution ledger) become
explicit association lists threaded through the functions; the nondeterminism
of select statements becomes an explicit event parameter saying which branch
fired; Go errors become an inductive Err type, with nil errors as Option.none;
a Go channel of capacity raftSendBufferSize becomes a list whose length is
checked against that capacity on enqueue.
-/

namespace RaftTransportModel

/-- Node identifier (roachpb.NodeID). -/
abbrev NodeID := Nat

/-- Store identifier (roachpb.StoreID). -/
abbrev StoreID := Nat

/-- Range identifier (roachpb.RangeID). -/
abbrev RangeID := Nat

/-- Network address, kept abstract (net.Addr). -/
abbrev Addr := Nat

/-- roachpb.ReplicaDescriptor: a (node, store) pair plus replica id, the
transport-level destination key. -/
structure ReplicaDescriptor where
  nodeID : NodeID
  storeID : StoreID
  replicaID : Nat
deriving DecidableEq, Repr

/-- The raftpb message types the transport inspects; every type it does not
inspect is collapsed into MsgOther. -/
inductive MessageType where
  | MsgHeartbeat
  | MsgHeartbeatResp
  | MsgSnap
  | MsgApp
  | MsgVote
  | MsgOther
deriving DecidableEq, Repr

/-- RaftMessageRequest: the envelope carrying a raft message, with its range
identifier and source and destination replica descriptors. The raft payload
beyond its type is invisible to the transport. -/
structure RaftMessageRequest where
  rangeID : RangeID
  fromReplica : ReplicaDescriptor
  toReplica : ReplicaDescriptor
  msgType : MessageType
deriving DecidableEq, Repr

/-- Errors observable in the embedded code. Collaborator errors (resolver
failures, grpc errors, stopper refusals, handler errors) are kept abstract and
appear as external codes; the two error values constructed by
raft_transport.go itself get dedicated constructors. -/
inductive Err where
  /-- errors.Errorf: address resolution for (node) stopped before completion. -/
  | resolutionStopped (n : NodeID)
  /-- errors.Errorf: unable to accept Raft message, no store registered. -/
  | noHandler (toRep fromRep : ReplicaDescriptor)
  /-- An abstract error produced by an external collaborator. -/
  | external (code : Nat)
deriving DecidableEq, Repr

/-- One nanosecond units: time.Second in Go. -/
def second : Nat := 1000000000

/-- Constant from the source: outgoing messages are queued per-replica on a
channel of this size. -/
def raftSendBufferSize : Nat := 100

/-- Constant from the source: when no message has been queued for this
duration, the corresponding instance of processQueue shuts down
(time.Minute). -/
def raftIdleTimeout : Nat := 60 * second

/-- Variable from the source: initial retry backoff for resolving a node id
to an address (time.Second by default). -/
def InitialResolveBackoff : Nat := second

/-- RaftSnapshotStatus: a MsgSnap envelope paired with its resulting write
error (none for a nil error). -/
structure RaftSnapshotStatus where
  req : RaftMessageRequest
  err : Option Err
deriving DecidableEq, Repr

/-- The key of the queue registry: the Go code keys a two-level map first by
the snapshot class (a Bool) and then by the destination ReplicaDescriptor; we
flatten the two levels into one pair key, which has the same lookup and
update behaviour. -/
abbrev QueueKey := Bool × ReplicaDescriptor

/-- The queue registry t.mu.queues: an association list from queue key to the
buffered channel contents (front of the list is the next message the pump
receives). -/
abbrev QueueMap := List (QueueKey × List RaftMessageRequest)

/-- Map lookup on the queue registry. -/
def lookupQ : QueueMap → QueueKey → Option (List RaftMessageRequest)
  | [], _ => none
  | (k, v) :: rest, key => if k = key then some v else lookupQ rest key

/-- Map key deletion on the queue registry (delete in Go). -/
def eraseQ : QueueMap → QueueKey → QueueMap
  | [], _ => []
  | (k, v) :: rest, key =>
      if k = key then eraseQ rest key else (k, v) :: eraseQ rest key

/-- Map insertion or replacement on the queue registry. -/
def updateQ (st : QueueMap) (key : QueueKey) (v : List RaftMessageRequest) :
    QueueMap :=
  (key, v) :: eraseQ st key

/-- Heartbeat classification from SendAsync: MsgHeartbeat or
MsgHeartbeatResp. -/
def isHeartbeat : MessageType → Bool
  | .MsgHeartbeat => true
  | .MsgHeartbeatResp => true
  | _ => false

/-- The queue key SendAsync selects for an envelope: the snapshot class
(req.Message.Type == raftpb.MsgSnap) together with req.ToReplica. -/
def sendKey (req : RaftMessageRequest) : QueueKey :=
  (decide (req.msgType = MessageType.MsgSnap), req.toReplica)

/-- Result of the SendAsync call itself: either the panic on the range-0
contract violation, or a normal return carrying the boolean enqueue
outcome. -/
inductive SendOutcome where
  | panicked (msg : String)
  | sent (accepted : Bool)
deriving DecidableEq, Repr

/-- Everything SendAsync does that is observable: its outcome, the queue
registry afterwards, the onError invocations it makes synchronously (error
and destination replica), and whether it handed a new pump worker to the
stopper. -/
structure SendEffects where
  outcome : SendOutcome
  queues : QueueMap
  onErrorCalls : List (Option Err × ReplicaDescriptor)
  pumpStarted : Bool
deriving DecidableEq, Repr

/-- RaftSender.SendAsync. The runTask argument models the stopper: none
means RunTask accepts the pump worker (which then runs asynchronously, see
pumpWorker), some e means RunTask refuses and returns the error e, in which
case SendAsync calls onError with e synchronously. The final select on the
channel becomes a length check against the channel capacity. -/
def sendAsync (st : QueueMap) (req : RaftMessageRequest)
    (runTask : Option Err) : SendEffects :=
  if req.rangeID = 0 ∧ isHeartbeat req.msgType = false then
    { outcome := .panicked "only heartbeat messages may be sent to range ID 0"
      queues := st
      onErrorCalls := []
      pumpStarted := false }
  else
    let key := sendKey req
    match lookupQ st key with
    | some q =>
        -- ok: the queue already existed, no worker is spawned.
        if q.length < raftSendBufferSize then
          { outcome := .sent true
            queues := updateQ st key (q ++ [req])
            onErrorCalls := []
            pumpStarted := false }
        else
          { outcome := .sent false
            queues := st
            onErrorCalls := []
            pumpStarted := false }
    | none =>
        -- not ok: create the channel, then try to start the worker.
        let calls : List (Option Err × ReplicaDescriptor) :=
          match runTask with
          | none => []
          | some e => [(some e, req.toReplica)]
        let started := runTask = none
        -- the fresh channel is empty, so the enqueue select succeeds
        -- whenever the capacity is positive.
        if ([] : List RaftMessageRequest).length < raftSendBufferSize then
          { outcome := .sent true
            queues := updateQ st key [req]
            onErrorCalls := calls
            pumpStarted := started }
        else
          { outcome := .sent false
            queues := updateQ st key []
            onErrorCalls := calls
            pumpStarted := started }

/-- The worker closure SendAsync hands to the stopper: it calls onError with
the processQueue result and the destination, then deletes the queue from the
registry. Returns the registry afterwards and the single onError invocation
(error and destination). -/
def pumpWorker (st : QueueMap) (isSnap : Bool) (toReplica : ReplicaDescriptor)
    (pqResult : Option Err) : QueueMap × (Option Err × ReplicaDescriptor) :=
  (eraseQ st (isSnap, toReplica), (pqResult, toReplica))

/-- Which branch of the main select of processQueue fires in one iteration.
For the recv branch, sendErr is the result of stream.Send on the dequeued
envelope (none for a nil error) and stopDuringStatus says whether, for a
snapshot envelope, the inner select publishing the snapshot status observed
ShouldStop instead of delivering the status. -/
inductive LoopEvent where
  | stop
  | idle
  | readerDone (e : Option Err)
  | recv (req : RaftMessageRequest) (sendErr : Option Err)
         (stopDuringStatus : Bool)
deriving DecidableEq, Repr

/-- Whether one iteration of the processQueue loop returns (with which error,
none for nil) or continues to the next iteration. -/
inductive StepResult where
  | exit (e : Option Err)
  | next
deriving DecidableEq, Repr

/-- One iteration of the main for-loop of processQueue, returning the loop
control outcome and the list of RaftSnapshotStatus values published to
t.SnapshotStatusChan during that iteration. -/
def processQueueStep (ev : LoopEvent) : StepResult × List RaftSnapshotStatus :=
  match ev with
  | .stop => (.exit none, [])
  | .idle => (.exit none, [])
  | .readerDone e => (.exit e, [])
  | .recv req sendErr stopDuringStatus =>
      if req.msgType = MessageType.MsgSnap then
        if stopDuringStatus then
          -- inner select: ShouldStop fired, return nil without publishing.
          (.exit none, [])
        else
          -- the status carrying the write error is published, then the
          -- error check runs.
          match sendErr with
          | some e => (.exit (some e), [⟨req, some e⟩])
          | none => (.next, [⟨req, none⟩])
      else
        match sendErr with
        | some e => (.exit (some e), [])
        | none => (.next, [])

/-- The address-resolution ledger t.mu.addrLookups: the set of node ids with
an in-flight resolution, as a list. -/
abbrev Ledger := List NodeID

/-- Which arm of the waiter select in resolveNodeID fires when an entry
already exists: the completion channel was closed, or ShouldQuiesce fired. -/
inductive WaitBranch where
  | signalled
  | quiesce
deriving DecidableEq, Repr

/-- Everything a resolveNodeID call does that is observable: its returned
value, whether this call became the single retrying resolver for the node,
how many resolver calls that loop made, whether the completion channel was
closed, the ledger contents while the call was in flight, and the ledger
after it returned. -/
structure ResolveOutcome where
  result : Except Err Addr
  ranLoop : Bool
  loopCalls : Nat
  chClosed : Bool
  ledgerDuring : Ledger
  ledgerAfter : Ledger
deriving Repr

/-- The retry loop of resolveNodeID. Modelled from the spec: the util/retry
package is not part of the source under verification; per the spec the loop
calls the resolver once per attempt and the Next step of the retry iterator
yields true until the closer (ShouldQuiesce) fires. The budget argument is
the number of attempts the iterator grants before the closer fires; the
resolver is indexed by attempt number since its answer can change over time.
Returns the loop result, whether the completion channel was closed, and the
number of resolver calls made. -/
def retryLoop (res : Nat → Except Err Addr) (n : NodeID) :
    Nat → Nat → Except Err Addr × Bool × Nat
  | _, 0 => (.error (.resolutionStopped n), false, 0)
  | attempt, budget + 1 =>
      match res attempt with
      | .ok a => (.ok a, true, 1)
      | .error _ =>
          let (r, closed, k) := retryLoop res n (attempt + 1) budget
          (r, closed, k + 1)

/-- RaftTransport.resolveNodeID. If the ledger holds an entry for the node,
the caller is a waiter: it blocks on the completion channel against
ShouldQuiesce (the branch argument says which fired) and on completion makes
one fresh call to the resolver (the freshRes argument). Otherwise the caller
installs an entry and becomes the single retrying resolver, running
retryLoop with the time-indexed resolver loopRes; the deferred delete
removes the entry afterwards in both loop outcomes. -/
def resolveNodeID (freshRes : NodeID → Except Err Addr) (ledger : Ledger)
    (n : NodeID) (branch : WaitBranch) (loopRes : Nat → Except Err Addr)
    (budget : Nat) : ResolveOutcome :=
  if ledger.contains n then
    match branch with
    | .signalled =>
        { result := freshRes n, ranLoop := false, loopCalls := 0
          chClosed := false, ledgerDuring := ledger, ledgerAfter := ledger }
    | .quiesce =>
        { result := .error (.resolutionStopped n), ranLoop := false
          loopCalls := 0, chClosed := false, ledgerDuring := ledger
          ledgerAfter := ledger }
  else
    let during := n :: ledger
    let (r, closed, k) := retryLoop loopRes n 0 budget
    { result := r, ranLoop := true, loopCalls := k, chClosed := closed
      ledgerDuring := during, ledgerAfter := during.erase n }

/-- Options passed to retry.Start in resolveNodeID (the closer field is
modelled by the budget argument of retryLoop). -/
structure RetryOptions where
  initialBackoff : Nat
  maxBackoff : Nat
  multiplier : Nat
deriving DecidableEq, Repr

/-- The retry options literal from resolveNodeID: InitialResolveBackoff,
10 * time.Second, multiplier 2. -/
def resolveRetryOpts : RetryOptions :=
  { initialBackoff := InitialResolveBackoff
    maxBackoff := 10 * second
    multiplier := 2 }

/-- Modelled from the spec: the backoff the util/retry iterator sleeps before
attempt k+1, namely the initial backoff scaled by the multiplier per
completed attempt and capped at the maximum backoff. The util/retry package
itself is not part of the source under verification. -/
def backoffAfter (o : RetryOptions) (k : Nat) : Nat :=
  min (o.initialBackoff * o.multiplier ^ k) o.maxBackoff

/-- A handler registered for a store: the callback invoked on each inbound
envelope, returning an error or nil. -/
abbrev Handler := RaftMessageRequest → Option Err

/-- One event observed by the inbound dispatch loop: a stream.Recv outcome,
either a receive error or a received envelope. -/
inductive RecvEvent where
  | recvErr (e : Err)
  | recvOk (req : RaftMessageRequest)
deriving Repr

/-- The inner worker loop of RaftTransport.RaftMessage over a finite prefix
of receive events: receive, look up the handler for the destination store,
invoke it; the loop body returns the first error met (sent on errCh), or
none when every event so far was handled and the loop is still blocked in
stream.Recv. -/
def dispatchLoop (handlers : StoreID → Option Handler) :
    List RecvEvent → Option Err
  | [] => none
  | .recvErr e :: _ => some e
  | .recvOk req :: rest =>
      match handlers req.toReplica.storeID with
      | none => some (.noHandler req.toReplica req.fromReplica)
      | some h =>
          match h req with
          | some e => some e
          | none => dispatchLoop handlers rest

/-- How RaftTransport.RaftMessage itself returns: with an error (the stream
terminal status sent to the remote) or by the graceful
SendAndClose(new(RaftMessageResponse)) path. -/
inductive RaftMessageResult where
  | err (e : Err)
  | gracefulClose
deriving DecidableEq, Repr

/-- RaftTransport.RaftMessage. The runTask argument models the stopper
refusing (some e) or accepting (none) the reader task; quiesceFirst says
whether ShouldQuiesce fired before the worker loop produced a value on
errCh. Returns none when neither select arm is ready on the given events
(the call is still blocked). -/
def raftMessage (runTask : Option Err) (handlers : StoreID → Option Handler)
    (events : List RecvEvent) (quiesceFirst : Bool) :
    Option RaftMessageResult :=
  match runTask with
  | some e => some (.err e)
  | none =>
      if quiesceFirst then some .gracefulClose
      else (dispatchLoop handlers events).map .err

/-- The inbound loop error causes named by the specification: a receive
failure, an unregistered destination store, or a handler-returned error,
possibly after a prefix of successfully handled envelopes. Stated over the
event list so that the dispatchLoop embedding can be compared with it. -/
inductive TerminalCause (h : StoreID → Option Handler) :
    List RecvEvent → Err → Prop where
  | recvFail (e : Err) (rest : List RecvEvent) :
      TerminalCause h (.recvErr e :: rest) e
  | unregistered (req : RaftMessageRequest) (rest : List RecvEvent) :
      h req.toReplica.storeID = none →
      TerminalCause h (.recvOk req :: rest)
        (.noHandler req.toReplica req.fromReplica)
  | handlerFailed (req : RaftMessageRequest) (rest : List RecvEvent)
      (f : Handler) (e : Err) :
      h req.toReplica.storeID = some f → f req = some e →
      TerminalCause h (.recvOk req :: rest) e
  | handled (req : RaftMessageRequest) (rest : List RecvEvent)
      (f : Handler) (e : Err) :
      h req.toReplica.storeID = some f → f req = none →
      TerminalCause h rest e →
      TerminalCause h (.recvOk req :: rest) e

/-- Sample replica descriptor used to evaluate the theorems on concrete
inputs. -/
def repA : ReplicaDescriptor := ⟨1, 1, 1⟩

/-- Second sample replica descriptor. -/
def repB : ReplicaDescriptor := ⟨2, 2, 2⟩

section MapLemmas

theorem lookupQ_eraseQ_self (st : QueueMap) (k : QueueKey) :
    lookupQ (eraseQ st k) k = none := by
  induction st with
  | nil => rfl
  | cons p rest ih =>
      obtain ⟨k0, v0⟩ := p
      by_cases h : k0 = k
      · simp [eraseQ, h, ih]
      · simp [eraseQ, h, lookupQ, ih]

theorem lookupQ_eraseQ_ne (st : QueueMap) (k q : QueueKey)
    (h : q ≠ k) : lookupQ (eraseQ st k) q = lookupQ st q := by
  induction st with
  | nil => rfl
  | cons p rest ih =>
      obtain ⟨k0, v0⟩ := p
      by_cases hk : k0 = k
      · subst hk
        have : ¬(k0 = q) := fun hq => h hq.symm
        simp [eraseQ, lookupQ, this, ih]
      · simp [eraseQ, hk, lookupQ, ih]

theorem lookupQ_updateQ_self (st : QueueMap) (k : QueueKey)
    (v : List RaftMessageRequest) : lookupQ (updateQ st k v) k = some v := by
  simp [updateQ, lookupQ]

theorem lookupQ_updateQ_ne (st : QueueMap) (k q : QueueKey)
    (v : List RaftMessageRequest) (h : q ≠ k) :
    lookupQ (updateQ st k v) q = lookupQ st q := by
  have hk : ¬(k = q) := fun hq => h hq.symm
  simp [updateQ, lookupQ, hk, lookupQ_eraseQ_ne st k q h]

end MapLemmas

section RetryLemmas

theorem retryLoop_all_fail (res : Nat → Except Err Addr) (n : NodeID) :
    ∀ (budget attempt : Nat),
      (∀ j, j < budget → ∃ e, res (attempt + j) = .error e) →
      retryLoop res n attempt budget =
        (.error (.resolutionStopped n), false, budget) := by
  intro budget
  induction budget with
  | zero => intro attempt _; rfl
  | succ b ih =>
      intro attempt h
      obtain ⟨e0, he0⟩ := h 0 (Nat.succ_pos b)
      have hres : res attempt = .error e0 := by simpa using he0
      have hrec := ih (attempt + 1) (fun j hj => by
        have := h (j + 1) (Nat.succ_lt_succ hj)
        simpa [Nat.add_assoc, Nat.add_comm 1 j] using this)
      simp [retryLoop, hres, hrec]

theorem retryLoop_first_success (res : Nat → Except Err Addr) (n : NodeID) :
    ∀ (k attempt budget : Nat) (a : Addr),
      k < budget → res (attempt + k) = .ok a →
      (∀ j, j < k → ∃ e, res (attempt + j) = .error e) →
      retryLoop res n attempt budget = (.ok a, true, k + 1) := by
  intro k
  induction k with
  | zero =>
      intro attempt budget a hk hok _
      obtain ⟨b, rfl⟩ := Nat.exists_eq_succ_of_ne_zero (Nat.pos_iff_ne_zero.mp hk)
      have hres : res attempt = .ok a := by simpa using hok
      simp [retryLoop, hres]
  | succ k ih =>
      intro attempt budget a hk hok hfail
      obtain ⟨b, rfl⟩ := Nat.exists_eq_succ_of_ne_zero
        (Nat.pos_iff_ne_zero.mp (Nat.lt_of_le_of_lt (Nat.zero_le _) hk))
      obtain ⟨e0, he0⟩ := hfail 0 (Nat.succ_pos k)
      have hres : res attempt = .error e0 := by simpa using he0
      have hrec := ih (attempt + 1) b a (Nat.lt_of_succ_lt_succ hk)
        (by simpa [Nat.add_assoc, Nat.add_comm 1 k] using hok)
        (fun j hj => by
          have := hfail (j + 1) (Nat.succ_lt_succ hj)
          simpa [Nat.add_assoc, Nat.add_comm 1 j] using this)
      simp [retryLoop, hres, hrec]

theorem backoff_step (i m k : Nat) :
    min (i * 2 ^ (k + 1)) m = min (2 * min (i * 2 ^ k) m) m := by
  have hx : i * 2 ^ (k + 1) = (i * 2 ^ k) * 2 := by ring
  rw [hx]
  generalize i * 2 ^ k = x
  rcases Nat.le_total x m with h | h
  · rw [Nat.min_eq_left h]
    omega
  · rw [Nat.min_eq_right h]
    omega

end RetryLemmas

/-- C1: for every message whose type is neither heartbeat nor
heartbeat-response, calling SendAsync with range identifier 0 aborts the
caller fatally with the panic message, not as a recoverable error or a false
return (the panicked outcome is a distinct constructor from any sent
outcome). -/
theorem sendAsync_nonheartbeat_range0_panics
    (st : QueueMap) (req : RaftMessageRequest) (rt : Option Err)
    (hhb : isHeartbeat req.msgType = false) (hr : req.rangeID = 0) :
    (sendAsync st req rt).outcome =
      SendOutcome.panicked "only heartbeat messages may be sent to range ID 0" := by
  simp [sendAsync, hhb, hr]

/-- Witness for C1: SendAsync on a MsgApp envelope addressed to range 0
panics. -/
theorem sendAsync_nonheartbeat_range0_panics_witness :
    (sendAsync [] ⟨0, repA, repB, MessageType.MsgApp⟩ none).outcome =
      SendOutcome.panicked "only heartbeat messages may be sent to range ID 0" :=
  sendAsync_nonheartbeat_range0_panics [] ⟨0, repA, repB, MessageType.MsgApp⟩
    none rfl rfl

/-- C9: SendAsync never panics for heartbeat or heartbeat-response messages,
whatever the range identifier, and never panics for any message with a
non-zero range identifier: every such call returns the boolean enqueue
outcome. -/
theorem sendAsync_no_spurious_panic
    (st : QueueMap) (req : RaftMessageRequest) (rt : Option Err)
    (h : isHeartbeat req.msgType = true ∨ req.rangeID ≠ 0) :
    ∃ b, (sendAsync st req rt).outcome = SendOutcome.sent b := by
  have hg : ¬(req.rangeID = 0 ∧ isHeartbeat req.msgType = false) := by
    rcases h with h | h
    · rintro ⟨_, hf⟩
      rw [h] at hf
      exact Bool.noConfusion hf
    · rintro ⟨h0, _⟩
      exact h h0
  rcases h1 : lookupQ st (sendKey req) with _ | q <;>
    simp only [sendAsync, if_neg hg, h1] <;> split <;> exact ⟨_, rfl⟩

/-- Witness for C9: a heartbeat on range 0, a heartbeat on a non-zero range,
and a MsgApp on a non-zero range all return without panicking. -/
theorem sendAsync_no_spurious_panic_witness :
    (∃ b, (sendAsync [] ⟨0, repA, repB, MessageType.MsgHeartbeat⟩ none).outcome =
      SendOutcome.sent b) ∧
    (∃ b, (sendAsync [] ⟨7, repA, repB, MessageType.MsgHeartbeatResp⟩ none).outcome =
      SendOutcome.sent b) ∧
    (∃ b, (sendAsync [] ⟨7, repA, repB, MessageType.MsgApp⟩ none).outcome =
      SendOutcome.sent b) :=
  ⟨sendAsync_no_spurious_panic [] ⟨0, repA, repB, MessageType.MsgHeartbeat⟩
      none (Or.inl rfl),
    sendAsync_no_spurious_panic [] ⟨7, repA, repB, MessageType.MsgHeartbeatResp⟩
      none (Or.inl rfl),
    sendAsync_no_spurious_panic [] ⟨7, repA, repB, MessageType.MsgApp⟩
      none (Or.inr (by decide))⟩

/-- C2: the per-destination and per-class queue capacity is the constant 100;
when the selected queue is full, SendAsync returns false without touching the
registry (so every other destination or class queue is unaffected), and when
the selected queue has free capacity SendAsync returns true, appends the
envelope to that queue, and leaves every other queue unchanged. The
embedding is a total function, so the false return never blocks. -/
theorem sendAsync_bounded_queue :
    raftSendBufferSize = 100 ∧
    (∀ (st : QueueMap) (req : RaftMessageRequest) (rt : Option Err)
       (q : List RaftMessageRequest),
      ¬(req.rangeID = 0 ∧ isHeartbeat req.msgType = false) →
      lookupQ st (sendKey req) = some q →
      (raftSendBufferSize ≤ q.length →
        (sendAsync st req rt).outcome = SendOutcome.sent false ∧
        (sendAsync st req rt).queues = st) ∧
      (q.length < raftSendBufferSize →
        (sendAsync st req rt).outcome = SendOutcome.sent true ∧
        lookupQ (sendAsync st req rt).queues (sendKey req) = some (q ++ [req]) ∧
        ∀ k, k ≠ sendKey req →
          lookupQ (sendAsync st req rt).queues k = lookupQ st k)) := by
  refine ⟨rfl, ?_⟩
  intro st req rt q hg hq
  constructor
  · intro hfull
    have hnlt : ¬(q.length < raftSendBufferSize) := Nat.not_lt.mpr hfull
    simp [sendAsync, if_neg hg, hq, hnlt]
  · intro hlt
    refine ⟨?_, ?_, ?_⟩
    · simp [sendAsync, if_neg hg, hq, hlt]
    · simp [sendAsync, if_neg hg, hq, hlt, lookupQ_updateQ_self]
    · intro k hk
      simp [sendAsync, if_neg hg, hq, hlt, lookupQ_updateQ_ne _ _ _ _ hk]

/-- Witness for C2: with a full queue of 100 heartbeats for the destination,
a further send returns false; with a one-element queue it returns true. -/
theorem sendAsync_bounded_queue_witness :
    (sendAsync
        [((false, repB), List.replicate 100 ⟨1, repA, repB, MessageType.MsgApp⟩)]
        ⟨1, repA, repB, MessageType.MsgApp⟩ none).outcome =
      SendOutcome.sent false ∧
    (sendAsync [((false, repB), [⟨1, repA, repB, MessageType.MsgApp⟩])]
        ⟨1, repA, repB, MessageType.MsgApp⟩ none).outcome =
      SendOutcome.sent true :=
  ⟨((sendAsync_bounded_queue.2
      [((false, repB), List.replicate 100 ⟨1, repA, repB, MessageType.MsgApp⟩)]
      ⟨1, repA, repB, MessageType.MsgApp⟩ none
      (List.replicate 100 ⟨1, repA, repB, MessageType.MsgApp⟩)
      (by decide) rfl).1 (by simp [raftSendBufferSize])).1,
    ((sendAsync_bounded_queue.2
      [((false, repB), [⟨1, repA, repB, MessageType.MsgApp⟩])]
      ⟨1, repA, repB, MessageType.MsgApp⟩ none
      [⟨1, repA, repB, MessageType.MsgApp⟩]
      (by decide) rfl).2 (by simp [raftSendBufferSize])).1⟩

/-- C10: when SendAsync creates a new queue but the stopper refuses the pump
worker, SendAsync synchronously invokes the bound error callback with the
refusal error, still performs the enqueue (which succeeds on the fresh empty
queue, returning true), and leaves the pump-less queue entry in the
registry. -/
theorem sendAsync_spawn_refused
    (st : QueueMap) (req : RaftMessageRequest) (e : Err)
    (hg : ¬(req.rangeID = 0 ∧ isHeartbeat req.msgType = false))
    (hq : lookupQ st (sendKey req) = none) :
    (sendAsync st req (some e)).onErrorCalls = [(some e, req.toReplica)] ∧
    (sendAsync st req (some e)).outcome = SendOutcome.sent true ∧
    lookupQ (sendAsync st req (some e)).queues (sendKey req) = some [req] ∧
    (sendAsync st req (some e)).pumpStarted = false := by
  refine ⟨?_, ?_, ?_, ?_⟩ <;>
    simp [sendAsync, if_neg hg, hq, raftSendBufferSize, lookupQ_updateQ_self]

/-- Witness for C10: a refused spawn on an empty registry calls onError with
the refusal error, returns true, and leaves the queue entry installed. -/
theorem sendAsync_spawn_refused_witness :
    (sendAsync [] ⟨1, repA, repB, MessageType.MsgApp⟩
        (some (Err.external 3))).onErrorCalls =
      [(some (Err.external 3), repB)] ∧
    (sendAsync [] ⟨1, repA, repB, MessageType.MsgApp⟩
        (some (Err.external 3))).outcome = SendOutcome.sent true ∧
    lookupQ (sendAsync [] ⟨1, repA, repB, MessageType.MsgApp⟩
        (some (Err.external 3))).queues
        (sendKey ⟨1, repA, repB, MessageType.MsgApp⟩) =
      some [⟨1, repA, repB, MessageType.MsgApp⟩] ∧
    (sendAsync [] ⟨1, repA, repB, MessageType.MsgApp⟩
        (some (Err.external 3))).pumpStarted = false :=
  sendAsync_spawn_refused [] ⟨1, repA, repB, MessageType.MsgApp⟩
    (Err.external 3) (by decide) rfl

/-- C7: whenever a pump worker terminates, the worker closure removes its
queue entry from the registry (discarding whatever envelopes were still
queued) and hands exactly the processQueue result, nil or not, to the bound
error callback, never to a SendAsync caller; the next SendAsync for that
destination and class then finds no entry, creates a fresh queue holding
only the new envelope, and spawns a new pump when the stopper accepts it. -/
theorem pumpWorker_teardown
    (st : QueueMap) (isSnap : Bool) (rep : ReplicaDescriptor)
    (e : Option Err) :
    lookupQ (pumpWorker st isSnap rep e).1 (isSnap, rep) = none ∧
    (pumpWorker st isSnap rep e).2 = (e, rep) ∧
    (∀ k, k ≠ (isSnap, rep) →
      lookupQ (pumpWorker st isSnap rep e).1 k = lookupQ st k) ∧
    (∀ (req : RaftMessageRequest) (rt : Option Err),
      sendKey req = (isSnap, rep) →
      ¬(req.rangeID = 0 ∧ isHeartbeat req.msgType = false) →
      (sendAsync (pumpWorker st isSnap rep e).1 req rt).outcome =
        SendOutcome.sent true ∧
      lookupQ (sendAsync (pumpWorker st isSnap rep e).1 req rt).queues
        (sendKey req) = some [req] ∧
      (rt = none →
        (sendAsync (pumpWorker st isSnap rep e).1 req rt).pumpStarted =
          true)) := by
  refine ⟨lookupQ_eraseQ_self st (isSnap, rep), rfl, ?_, ?_⟩
  · intro k hk
    exact lookupQ_eraseQ_ne st (isSnap, rep) k hk
  · intro req rt hkey hg
    have h1 : lookupQ (pumpWorker st isSnap rep e).1 (sendKey req) = none := by
      rw [hkey]
      exact lookupQ_eraseQ_self st (isSnap, rep)
    refine ⟨?_, ?_, ?_⟩
    · simp [sendAsync, if_neg hg, h1, raftSendBufferSize]
    · simp [sendAsync, if_neg hg, h1, raftSendBufferSize, lookupQ_updateQ_self]
    · rintro rfl
      simp [sendAsync, if_neg hg, h1, raftSendBufferSize]

/-- Witness for C7: tearing down the snapshot queue for the second replica
removes exactly that entry, reports a write error to the callback, and a
fresh snapshot send re-creates the queue with a new pump. -/
theorem pumpWorker_teardown_witness :
    lookupQ (pumpWorker
        [((true, repB), [⟨1, repA, repB, MessageType.MsgSnap⟩])] true repB
        (some (Err.external 4))).1 (true, repB) = none ∧
    (pumpWorker [((true, repB), [⟨1, repA, repB, MessageType.MsgSnap⟩])] true
        repB (some (Err.external 4))).2 = (some (Err.external 4), repB) ∧
    (sendAsync (pumpWorker
        [((true, repB), [⟨1, repA, repB, MessageType.MsgSnap⟩])] true repB
        (some (Err.external 4))).1 ⟨1, repA, repB, MessageType.MsgSnap⟩
        none).outcome = SendOutcome.sent true ∧
    (sendAsync (pumpWorker
        [((true, repB), [⟨1, repA, repB, MessageType.MsgSnap⟩])] true repB
        (some (Err.external 4))).1 ⟨1, repA, repB, MessageType.MsgSnap⟩
        none).pumpStarted = true := by
  have h := pumpWorker_teardown
    [((true, repB), [⟨1, repA, repB, MessageType.MsgSnap⟩])] true repB
    (some (Err.external 4))
  have h4 := h.2.2.2 ⟨1, repA, repB, MessageType.MsgSnap⟩ none (by decide)
    (by decide)
  exact ⟨h.1, h.2.1, h4.1, h4.2.2 rfl⟩

/-- C5: when the pump dequeues a snapshot-class envelope and the shutdown
signal has not fired, the iteration publishes exactly one RaftSnapshotStatus
pairing that envelope with its write error (nil or not) before the loop can
process any further message; an iteration handling a non-snapshot envelope
publishes no status. -/
theorem processQueue_snapshot_status :
    (∀ (req : RaftMessageRequest) (sendErr : Option Err),
      req.msgType = MessageType.MsgSnap →
      (processQueueStep (.recv req sendErr false)).2 = [⟨req, sendErr⟩]) ∧
    (∀ (req : RaftMessageRequest) (sendErr : Option Err) (sd : Bool),
      req.msgType ≠ MessageType.MsgSnap →
      (processQueueStep (.recv req sendErr sd)).2 = []) := by
  constructor
  · intro req se h
    cases se <;> simp [processQueueStep, h]
  · intro req se sd h
    cases se <;> simp [processQueueStep, h]

/-- Witness for C5: a snapshot send with a nil write error publishes exactly
its status; a MsgApp send publishes nothing. -/
theorem processQueue_snapshot_status_witness :
    (processQueueStep
        (.recv ⟨1, repA, repB, MessageType.MsgSnap⟩ none false)).2 =
      [⟨⟨1, repA, repB, MessageType.MsgSnap⟩, none⟩] ∧
    (processQueueStep
        (.recv ⟨1, repA, repB, MessageType.MsgApp⟩ (some (Err.external 2))
          false)).2 = [] :=
  ⟨processQueue_snapshot_status.1 ⟨1, repA, repB, MessageType.MsgSnap⟩ none
      rfl,
    processQueue_snapshot_status.2 ⟨1, repA, repB, MessageType.MsgApp⟩
      (some (Err.external 2)) false (by decide)⟩

/-- Counterexample to C6 as stated: a snapshot envelope whose write failed,
with the shutdown signal firing at the status-publication select, makes the
loop return nil even though the written envelope send failed, so a non-nil
return is not equivalent to a reader error or a send failure. -/
theorem processQueue_sendfail_stop_returns_nil :
    processQueueStep
        (.recv ⟨1, repA, repB, MessageType.MsgSnap⟩ (some (Err.external 5))
          true) =
      (StepResult.exit none, []) := rfl

/-- C6 amended: the loop returns nil on the shutdown branch and on the idle
branch (whose timeout constant is one minute), returns whatever the reader
delivered on the reader branch, and returns a non-nil error exactly when the
reader delivered a non-nil error or a dequeued envelope failed to send and
it was not a snapshot whose status-publication select observed shutdown (in
that race the loop returns nil). -/
theorem processQueue_exit_rules :
    raftIdleTimeout = 60 * second ∧
    (processQueueStep .stop).1 = StepResult.exit none ∧
    (processQueueStep .idle).1 = StepResult.exit none ∧
    (∀ e, (processQueueStep (.readerDone e)).1 = StepResult.exit e) ∧
    (∀ ev, (∃ e, (processQueueStep ev).1 = StepResult.exit (some e)) ↔
      (match ev with
       | .readerDone (some _) => True
       | .recv req (some _) sd =>
           ¬(req.msgType = MessageType.MsgSnap ∧ sd = true)
       | _ => False)) := by
  refine ⟨rfl, rfl, rfl, fun e => rfl, ?_⟩
  intro ev
  cases ev with
  | stop => simp [processQueueStep]
  | idle => simp [processQueueStep]
  | readerDone e => cases e <;> simp [processQueueStep]
  | recv req se sd =>
      by_cases hs : req.msgType = MessageType.MsgSnap
      · cases sd <;> cases se <;> simp [processQueueStep, hs]
      · cases sd <;> cases se <;> simp [processQueueStep, hs]

/-- Witness for C6 amended: the reader branch with a concrete error gives a
non-nil exit, obtained through the equivalence. -/
theorem processQueue_exit_rules_witness :
    ∃ e, (processQueueStep (.readerDone (some (Err.external 3)))).1 =
      StepResult.exit (some e) :=
  (processQueue_exit_rules.2.2.2.2
      (.readerDone (some (Err.external 3)))).mpr True.intro

/-- C3: single-flight address resolution. A call finding a ledger entry for
the node runs no retry loop and makes no loop resolver calls: it waits, and
on the completion signal performs one fresh resolver call and returns its
result, while on shutdown it returns the stopped-before-completion error,
leaving the ledger unchanged. A call finding no entry becomes the single
retrying resolver and its ledger entry is visible for the whole loop, so
every concurrent call for the same node takes the waiter path. -/
theorem resolveNodeID_single_flight :
    (∀ (freshRes : NodeID → Except Err Addr) (ledger : Ledger) (n : NodeID)
       (branch : WaitBranch) (loopRes : Nat → Except Err Addr) (budget : Nat),
      ledger.contains n = true →
      (resolveNodeID freshRes ledger n branch loopRes budget).ranLoop = false ∧
      (resolveNodeID freshRes ledger n branch loopRes budget).loopCalls = 0 ∧
      (resolveNodeID freshRes ledger n branch loopRes budget).ledgerAfter =
        ledger ∧
      (branch = .signalled →
        (resolveNodeID freshRes ledger n branch loopRes budget).result =
          freshRes n) ∧
      (branch = .quiesce →
        (resolveNodeID freshRes ledger n branch loopRes budget).result =
          Except.error (Err.resolutionStopped n))) ∧
    (∀ (freshRes : NodeID → Except Err Addr) (ledger : Ledger) (n : NodeID)
       (branch : WaitBranch) (loopRes : Nat → Except Err Addr) (budget : Nat),
      ledger.contains n = false →
      (resolveNodeID freshRes ledger n branch loopRes budget).ranLoop = true ∧
      (resolveNodeID freshRes ledger n branch loopRes
          budget).ledgerDuring.contains n = true) := by
  constructor
  · intro freshRes ledger n branch loopRes budget h
    have hm : n ∈ ledger := by simpa using h
    cases branch <;> simp [resolveNodeID, hm]
  · intro freshRes ledger n branch loopRes budget h
    have hm : n ∉ ledger := by simpa using h
    cases branch <;> simp [resolveNodeID, hm]

/-- Witness for C3: with node 5 already in the ledger, the signalled waiter
returns the fresh resolver answer with no loop, the quiesce waiter returns
the stopped error, and with an empty ledger the installer runs the loop. -/
theorem resolveNodeID_single_flight_witness :
    (resolveNodeID (fun m => Except.ok (m + 40)) [5] 5 .signalled
        (fun _ => Except.error (Err.external 0)) 3).ranLoop = false ∧
    (resolveNodeID (fun m => Except.ok (m + 40)) [5] 5 .signalled
        (fun _ => Except.error (Err.external 0)) 3).result = Except.ok 45 ∧
    (resolveNodeID (fun m => Except.ok (m + 40)) [5] 5 .quiesce
        (fun _ => Except.error (Err.external 0)) 3).result =
      Except.error (Err.resolutionStopped 5) ∧
    (resolveNodeID (fun m => Except.ok (m + 40)) [] 5 .signalled
        (fun _ => Except.error (Err.external 0)) 3).ranLoop = true := by
  have h1 := resolveNodeID_single_flight.1 (fun m => Except.ok (m + 40)) [5] 5
    .signalled (fun _ => Except.error (Err.external 0)) 3 rfl
  have h2 := resolveNodeID_single_flight.1 (fun m => Except.ok (m + 40)) [5] 5
    .quiesce (fun _ => Except.error (Err.external 0)) 3 rfl
  have h3 := resolveNodeID_single_flight.2 (fun m => Except.ok (m + 40)) [] 5
    .signalled (fun _ => Except.error (Err.external 0)) 3 rfl
  exact ⟨h1.1, h1.2.2.2.1 rfl, h2.2.2.2.2 rfl, h3.1⟩

/-- C4: the single retrying resolver uses the retry options initial backoff
InitialResolveBackoff (one second by default), multiplier 2 and cap ten
seconds, so the backoff grows by doubling and saturates at the cap; on the
first resolver success within the budget the shutdown signal grants, the
loop closes the completion channel, the deferred delete removes the ledger
entry, and the call returns the address; when every granted attempt fails
because shutdown fired, the call returns the stopped-before-completion
error (the resolution-aborted condition) and the completion channel stays
open, the ledger entry again removed by the deferred delete. -/
theorem resolveNodeID_backoff_retry :
    resolveRetryOpts =
      { initialBackoff := second, maxBackoff := 10 * second,
        multiplier := 2 } ∧
    InitialResolveBackoff = second ∧
    backoffAfter resolveRetryOpts 0 = second ∧
    (∀ k, backoffAfter resolveRetryOpts (k + 1) =
      min (2 * backoffAfter resolveRetryOpts k) (10 * second)) ∧
    (∀ (freshRes : NodeID → Except Err Addr) (ledger : Ledger) (n : NodeID)
       (branch : WaitBranch) (loopRes : Nat → Except Err Addr)
       (budget k : Nat) (a : Addr),
      ledger.contains n = false → k < budget → loopRes k = Except.ok a →
      (∀ j, j < k → ∃ e, loopRes j = Except.error e) →
      (resolveNodeID freshRes ledger n branch loopRes budget).result =
        Except.ok a ∧
      (resolveNodeID freshRes ledger n branch loopRes budget).chClosed =
        true ∧
      (resolveNodeID freshRes ledger n branch loopRes budget).ledgerAfter =
        ledger) ∧
    (∀ (freshRes : NodeID → Except Err Addr) (ledger : Ledger) (n : NodeID)
       (branch : WaitBranch) (loopRes : Nat → Except Err Addr) (budget : Nat),
      ledger.contains n = false →
      (∀ j, j < budget → ∃ e, loopRes j = Except.error e) →
      (resolveNodeID freshRes ledger n branch loopRes budget).result =
        Except.error (Err.resolutionStopped n) ∧
      (resolveNodeID freshRes ledger n branch loopRes budget).chClosed =
        false ∧
      (resolveNodeID freshRes ledger n branch loopRes budget).ledgerAfter =
        ledger) := by
  refine ⟨rfl, rfl, by norm_num [backoffAfter, resolveRetryOpts,
    InitialResolveBackoff, second], ?_, ?_, ?_⟩
  · intro k
    simp only [backoffAfter, resolveRetryOpts]
    exact backoff_step InitialResolveBackoff (10 * second) k
  · intro freshRes ledger n branch loopRes budget k a h hk hok hfail
    have hm : n ∉ ledger := by simpa using h
    have hloop := retryLoop_first_success loopRes n k 0 budget a hk
      (by simpa using hok) (fun j hj => by simpa using hfail j hj)
    cases branch <;> simp [resolveNodeID, hm, hloop]
  · intro freshRes ledger n branch loopRes budget h hfail
    have hm : n ∉ ledger := by simpa using h
    have hloop := retryLoop_all_fail loopRes n budget 0
      (fun j hj => by simpa using hfail j hj)
    cases branch <;> simp [resolveNodeID, hm, hloop]

/-- Witness for C4: a resolver failing twice and succeeding on the third
attempt within a budget of five returns the address with the channel
closed, and a resolver failing on every one of its three granted attempts
returns the stopped error with the channel still open. -/
theorem resolveNodeID_backoff_retry_witness :
    (resolveNodeID (fun _ => Except.error (Err.external 9)) [] 3 .signalled
        (fun k => if k = 2 then Except.ok 7 else Except.error (Err.external 0))
        5).result = Except.ok 7 ∧
    (resolveNodeID (fun _ => Except.error (Err.external 9)) [] 3 .signalled
        (fun k => if k = 2 then Except.ok 7 else Except.error (Err.external 0))
        5).chClosed = true ∧
    (resolveNodeID (fun _ => Except.error (Err.external 9)) [] 3 .signalled
        (fun _ => Except.error (Err.external 0)) 3).result =
      Except.error (Err.resolutionStopped 3) ∧
    (resolveNodeID (fun _ => Except.error (Err.external 9)) [] 3 .signalled
        (fun _ => Except.error (Err.external 0)) 3).chClosed = false := by
  have h1 := resolveNodeID_backoff_retry.2.2.2.2.1
    (fun _ => Except.error (Err.external 9)) [] 3 .signalled
    (fun k => if k = 2 then Except.ok 7 else Except.error (Err.external 0))
    5 2 7 rfl (by decide) rfl
    (by
      intro j hj
      interval_cases j <;> exact ⟨Err.external 0, rfl⟩)
  have h2 := resolveNodeID_backoff_retry.2.2.2.2.2
    (fun _ => Except.error (Err.external 9)) [] 3 .signalled
    (fun _ => Except.error (Err.external 0)) 3 rfl
    (fun j _ => ⟨Err.external 0, rfl⟩)
  exact ⟨h1.1, h1.2.1, h2.1, h2.2.1⟩

/-- Helper for C8: the worker loop of RaftMessage produces an error exactly
when one of the three causes named by the specification occurs after a
prefix of successfully handled envelopes. -/
theorem dispatchLoop_iff_cause (h : StoreID → Option Handler) :
    ∀ (events : List RecvEvent) (e : Err),
      dispatchLoop h events = some e ↔ TerminalCause h events e := by
  intro events
  induction events with
  | nil =>
      intro e
      constructor
      · intro he
        exact absurd he (by simp [dispatchLoop])
      · intro tc
        cases tc
  | cons ev rest ih =>
      intro e
      cases ev with
      | recvErr e0 =>
          simp only [dispatchLoop, Option.some.injEq]
          constructor
          · rintro rfl
            exact .recvFail e0 rest
          · intro tc
            cases tc
            rfl
      | recvOk req =>
          cases hh : h req.toReplica.storeID with
          | none =>
              simp only [dispatchLoop, hh, Option.some.injEq]
              constructor
              · rintro rfl
                exact .unregistered req rest hh
              · intro tc
                cases tc with
                | unregistered _ _ _ => rfl
                | handlerFailed _ _ f e1 hf _ =>
                    rw [hh] at hf
                    exact Option.noConfusion hf
                | handled _ _ f e1 hf _ _ =>
                    rw [hh] at hf
                    exact Option.noConfusion hf
          | some f =>
              cases hf : f req with
              | some e0 =>
                  simp only [dispatchLoop, hh, hf, Option.some.injEq]
                  constructor
                  · rintro rfl
                    exact .handlerFailed req rest f e0 hh hf
                  · intro tc
                    cases tc with
                    | unregistered _ _ h0 =>
                        rw [hh] at h0
                        exact Option.noConfusion h0
                    | handlerFailed _ _ f1 _ hf1 he1 =>
                        rw [hh] at hf1
                        injection hf1 with hfe
                        subst hfe
                        rw [hf] at he1
                        injection he1
                    | handled _ _ f1 _ hf1 he1 _ =>
                        rw [hh] at hf1
                        injection hf1 with hfe
                        subst hfe
                        rw [hf] at he1
                        exact Option.noConfusion he1
              | none =>
                  simp only [dispatchLoop, hh, hf]
                  rw [ih e]
                  constructor
                  · intro tc
                    exact .handled req rest f e hh hf tc
                  · intro tc
                    cases tc with
                    | unregistered _ _ h0 =>
                        rw [hh] at h0
                        exact Option.noConfusion h0
                    | handlerFailed _ _ f1 _ hf1 he1 =>
                        rw [hh] at hf1
                        injection hf1 with hfe
                        subst hfe
                        rw [hf] at he1
                        exact Option.noConfusion he1
                    | handled _ _ f1 _ hf1 _ tc1 =>
                        exact tc1

/-- Counterexample to C8 as stated: when the shutdown signal has already
fired at entry, the stopper refuses the reader task and RaftMessage returns
the refusal error as the stream terminal status, not the graceful empty
response without error that the claim promises whenever shutdown fires
first, and with none of a receive failure, a missing handler, or a handler
error present. -/
theorem raftMessage_refused_counterexample :
    raftMessage (some (Err.external 7)) (fun _ => none) [] true =
      some (RaftMessageResult.err (Err.external 7)) ∧
    RaftMessageResult.err (Err.external 7) ≠
      RaftMessageResult.gracefulClose :=
  ⟨rfl, by decide⟩

/-- C8 amended: provided the stopper accepts the reader task, the inbound
dispatch loop terminates and returns an error to the remote exactly when a
stream receive fails, the destination store has no registered handler, or
the invoked handler returns an error, and if the shutdown signal fires
first the stream is closed with the graceful empty response and no error;
when the stopper refuses the task, RaftMessage instead returns the refusal
error. -/
theorem raftMessage_terminal_errors :
    (∀ (handlers : StoreID → Option Handler) (events : List RecvEvent),
      raftMessage none handlers events true =
        some RaftMessageResult.gracefulClose) ∧
    (∀ (handlers : StoreID → Option Handler) (events : List RecvEvent)
       (e : Err),
      raftMessage none handlers events false =
          some (RaftMessageResult.err e) ↔
        dispatchLoop handlers events = some e) ∧
    (∀ (handlers : StoreID → Option Handler) (events : List RecvEvent)
       (e : Err),
      dispatchLoop handlers events = some e ↔
        TerminalCause handlers events e) ∧
    (∀ (e : Err) (handlers : StoreID → Option Handler)
       (events : List RecvEvent) (q : Bool),
      raftMessage (some e) handlers events q =
        some (RaftMessageResult.err e)) := by
  refine ⟨fun handlers events => rfl, ?_, ?_, fun e handlers events q => rfl⟩
  · intro handlers events e
    cases hd : dispatchLoop handlers events <;>
      simp [raftMessage, hd]
  · intro handlers events e
    exact dispatchLoop_iff_cause handlers events e

/-- Witness for C8 amended: with no handlers registered, shutdown first
closes gracefully, a receive error is returned to the remote, and the
missing-handler cause is exhibited through the equivalence. -/
theorem raftMessage_terminal_errors_witness :
    raftMessage none (fun _ => none) [] true =
      some RaftMessageResult.gracefulClose ∧
    raftMessage none (fun _ => none) [.recvErr (Err.external 1)] false =
      some (RaftMessageResult.err (Err.external 1)) ∧
    TerminalCause (fun _ => none)
      [.recvOk ⟨1, repA, repB, MessageType.MsgApp⟩]
      (Err.noHandler repB repA) :=
  ⟨raftMessage_terminal_errors.1 (fun _ => none) [],
    (raftMessage_terminal_errors.2.1 (fun _ => none)
        [.recvErr (Err.external 1)] (Err.external 1)).mpr rfl,
    (raftMessage_terminal_errors.2.2.1 (fun _ => none)
        [.recvOk ⟨1, repA, repB, MessageType.MsgApp⟩]
        (Err.noHandler repB repA)).mp rfl⟩

end RaftTransportModel
